import Mathlib

/-!
Shallow embedding of the CareNavX patient-onboarding core:
the in-memory patient record store (`server/storage.ts`, `MemStorage`),
the HTTP route layer around it (`server/routes.ts`), and the client-side
onboarding wizard transitions (`onboarding-personal.tsx`,
`onboarding-insurance.tsx`, the medical step of the wizard,
`onboarding-emergency.tsx` and `onboarding-confirmation.tsx`).

Conventions of the embedding:
* Wall-clock times (`new Date()`) are a logical clock `Nat`, passed
  explicitly to each operation as `now`.
* `randomUUID()` keys are modelled by a `nextId : Nat` counter shared by
  the patient and activity maps; the JS `Map` keyed by the generated id
  becomes a `List` of records carrying their own `id`, with `Map.get`
  as `List.find?` on the id and `Map.set` of an existing key as an
  id-preserving in-place replacement.
* `string | null` columns are `Option String`; a missing key of a
  `Partial<Patient>` payload is the outer `none` of an `Option`.
* `Math.random()` picks are an explicit `Nat` parameter reduced mod the
  length of the list being picked from.
-/

/-- A patient row, following the `patients` table of `shared/schema.ts`
and the object built by `MemStorage.createPatient`. -/
structure Patient where
  id : Nat
  firstName : String
  lastName : String
  dateOfBirth : String
  phone : String
  address : String
  emergencyContactName : Option String
  emergencyContactRelationship : Option String
  emergencyContactPhone : Option String
  insuranceProvider : Option String
  insurancePolicyNumber : Option String
  insuranceGroupNumber : Option String
  insuranceStatus : Option String
  medicalHistory : Option String
  allergies : Option String
  medications : Option String
  onboardingStep : Int
  isCompleted : Bool
  isEmergency : Bool
  admissionLocation : Option String
  createdAt : Nat
  updatedAt : Nat
deriving Repr, DecidableEq

/-- The `InsertPatient` payload accepted by `MemStorage.createPatient`
(after the route's zod validation): required demographics plus optional
fields, mirroring `patientSchema` in `server/routes.ts`. -/
structure InsertPatient where
  firstName : String
  lastName : String
  dateOfBirth : String
  phone : String
  address : String
  emergencyContactName : Option String := none
  emergencyContactRelationship : Option String := none
  emergencyContactPhone : Option String := none
  insuranceProvider : Option String := none
  insurancePolicyNumber : Option String := none
  insuranceGroupNumber : Option String := none
  insuranceStatus : Option String := none
  medicalHistory : Option String := none
  allergies : Option String := none
  medications : Option String := none
  onboardingStep : Option Int := none
  isCompleted : Option Bool := none
  isEmergency : Option Bool := none
  admissionLocation : Option String := none
deriving Repr, DecidableEq

/-- JS `x || null` on an optional string: both a missing value and the
empty string collapse to `null`. -/
def orNull (o : Option String) : Option String :=
  match o with
  | some s => if s = "" then none else some s
  | none => none

/-- A `Partial<Patient>` update payload as accepted by
`MemStorage.updatePatient` (spread over the stored record). The `id`
key is not modelled: the map key and the record id coincide in the
embedding. A field set to JS `null` is `some none`. -/
structure PatientUpdate where
  firstName : Option String := none
  lastName : Option String := none
  dateOfBirth : Option String := none
  phone : Option String := none
  address : Option String := none
  emergencyContactName : Option (Option String) := none
  emergencyContactRelationship : Option (Option String) := none
  emergencyContactPhone : Option (Option String) := none
  insuranceProvider : Option (Option String) := none
  insurancePolicyNumber : Option (Option String) := none
  insuranceGroupNumber : Option (Option String) := none
  insuranceStatus : Option (Option String) := none
  medicalHistory : Option (Option String) := none
  allergies : Option (Option String) := none
  medications : Option (Option String) := none
  onboardingStep : Option Int := none
  isCompleted : Option Bool := none
  isEmergency : Option Bool := none
  admissionLocation : Option (Option String) := none
  createdAt : Option Nat := none
deriving Repr, DecidableEq

/-- The spread `{ ...patient, ...updates, updatedAt: new Date() }` of
`MemStorage.updatePatient`. -/
def applyUpdate (p : Patient) (u : PatientUpdate) (now : Nat) : Patient :=
  { id := p.id
    firstName := u.firstName.getD p.firstName
    lastName := u.lastName.getD p.lastName
    dateOfBirth := u.dateOfBirth.getD p.dateOfBirth
    phone := u.phone.getD p.phone
    address := u.address.getD p.address
    emergencyContactName := u.emergencyContactName.getD p.emergencyContactName
    emergencyContactRelationship := u.emergencyContactRelationship.getD p.emergencyContactRelationship
    emergencyContactPhone := u.emergencyContactPhone.getD p.emergencyContactPhone
    insuranceProvider := u.insuranceProvider.getD p.insuranceProvider
    insurancePolicyNumber := u.insurancePolicyNumber.getD p.insurancePolicyNumber
    insuranceGroupNumber := u.insuranceGroupNumber.getD p.insuranceGroupNumber
    insuranceStatus := u.insuranceStatus.getD p.insuranceStatus
    medicalHistory := u.medicalHistory.getD p.medicalHistory
    allergies := u.allergies.getD p.allergies
    medications := u.medications.getD p.medications
    onboardingStep := u.onboardingStep.getD p.onboardingStep
    isCompleted := u.isCompleted.getD p.isCompleted
    isEmergency := u.isEmergency.getD p.isEmergency
    admissionLocation := u.admissionLocation.getD p.admissionLocation
    createdAt := u.createdAt.getD p.createdAt
    updatedAt := now }

/-- An activity row, following the `activities` table. -/
structure Activity where
  id : Nat
  patientId : Option Nat
  action : String
  description : String
  createdAt : Nat
deriving Repr, DecidableEq

/-- The `InsertActivity` payload of `MemStorage.createActivity`. -/
structure InsertActivity where
  patientId : Option Nat := none
  action : String
  description : String
deriving Repr, DecidableEq

/-- The mutable state of `MemStorage`: the patient map, the activity
map, and the uuid source. Documents and users are out of scope for the
claims and are omitted. -/
structure Store where
  patients : List Patient
  activities : List Activity
  nextId : Nat
deriving Repr, DecidableEq

def Store.empty : Store := { patients := [], activities := [], nextId := 0 }

/-- `MemStorage.getPatient`. -/
def getPatient (s : Store) (id : Nat) : Option Patient :=
  s.patients.find? (fun p => p.id == id)

/-- `Map.set` of an existing patient key: replace the record whose id
matches, leave everything else in place. -/
def setPatient (l : List Patient) (id : Nat) (p' : Patient) : List Patient :=
  l.map (fun q => if q.id == id then p' else q)

/-- `MemStorage.createPatient`: build the patient from the insert
payload (JS `|| null` on optional strings, `?? `defaults on step and
flags), assign a fresh id and both timestamps, append to the map. -/
def createPatient (s : Store) (ins : InsertPatient) (now : Nat) : Store × Patient :=
  let p : Patient :=
    { id := s.nextId
      firstName := ins.firstName
      lastName := ins.lastName
      dateOfBirth := ins.dateOfBirth
      phone := ins.phone
      address := ins.address
      emergencyContactName := orNull ins.emergencyContactName
      emergencyContactRelationship := orNull ins.emergencyContactRelationship
      emergencyContactPhone := orNull ins.emergencyContactPhone
      insuranceProvider := orNull ins.insuranceProvider
      insurancePolicyNumber := orNull ins.insurancePolicyNumber
      insuranceGroupNumber := orNull ins.insuranceGroupNumber
      insuranceStatus := orNull ins.insuranceStatus
      medicalHistory := orNull ins.medicalHistory
      allergies := orNull ins.allergies
      medications := orNull ins.medications
      onboardingStep := ins.onboardingStep.getD 1
      isCompleted := ins.isCompleted.getD false
      isEmergency := ins.isEmergency.getD false
      admissionLocation := orNull ins.admissionLocation
      createdAt := now
      updatedAt := now }
  ({ s with patients := s.patients ++ [p], nextId := s.nextId + 1 }, p)

/-- `MemStorage.updatePatient`: not-found leaves the store untouched and
returns `undefined`; otherwise spread the updates and refresh
`updatedAt`. -/
def updatePatient (s : Store) (id : Nat) (u : PatientUpdate) (now : Nat) :
    Store × Option Patient :=
  match s.patients.find? (fun p => p.id == id) with
  | none => (s, none)
  | some p =>
    let p' := applyUpdate p u now
    ({ s with patients := setPatient s.patients id p' }, some p')

/-- `MemStorage.completeOnboarding`: not-found leaves the store
untouched; otherwise set `isCompleted`, `admissionLocation` and
`updatedAt`, nothing else. -/
def completeOnboarding (s : Store) (id : Nat) (loc : String) (now : Nat) :
    Store × Option Patient :=
  match s.patients.find? (fun p => p.id == id) with
  | none => (s, none)
  | some p =>
    let p' := { p with isCompleted := true, admissionLocation := some loc, updatedAt := now }
    ({ s with patients := setPatient s.patients id p' }, some p')

/-- `MemStorage.createActivity`: fresh id, `createdAt`, append. -/
def createActivity (s : Store) (ins : InsertActivity) (now : Nat) : Store × Activity :=
  let a : Activity :=
    { id := s.nextId
      patientId := ins.patientId
      action := ins.action
      description := ins.description
      createdAt := now }
  ({ s with activities := s.activities ++ [a], nextId := s.nextId + 1 }, a)

/-- Newest-first comparison used by `getRecentActivities`
(`b.createdAt - a.createdAt` as a sort comparator). -/
def newestFirst (a b : Activity) : Prop := b.createdAt ≤ a.createdAt

instance : DecidableRel newestFirst := fun a b => Nat.decLe b.createdAt a.createdAt

instance : IsTotal Activity newestFirst := ⟨fun a b => Nat.le_total b.createdAt a.createdAt⟩

instance : IsTrans Activity newestFirst := ⟨fun _ _ _ h1 h2 => Nat.le_trans h2 h1⟩

/-- `MemStorage.getRecentActivities`: sort newest first, take `limit`
(the TS default is 10; the limit is passed explicitly here). -/
def getRecentActivities (s : Store) (limit : Nat) : List Activity :=
  (List.insertionSort newestFirst s.activities).take limit

/-- The stats record returned by `MemStorage.getDashboardStats`. -/
structure DashboardStats where
  totalPatients : Nat
  completedToday : Nat
  inProgress : Nat
  averageTime : Nat
deriving Repr, DecidableEq

/-- `MemStorage.getDashboardStats`; `todayStart` is today's midnight on
the logical clock. `averageTime` is the hardcoded constant 8 of the
source. -/
def getDashboardStats (s : Store) (todayStart : Nat) : DashboardStats :=
  { totalPatients := s.patients.length
    completedToday :=
      (s.patients.filter (fun p => p.isCompleted && todayStart ≤ p.updatedAt)).length
    inProgress :=
      (s.patients.filter (fun p => !p.isCompleted && 0 < p.onboardingStep)).length
    averageTime := 8 }

/-- Server-side zod `patientSchema` of `server/routes.ts`: the five
demographic fields at min length 1 (phone deliberately relaxed to
`min(1)` for emergency patients); everything else optional. -/
def patientSchemaValid (ins : InsertPatient) : Bool :=
  1 ≤ ins.firstName.length && 1 ≤ ins.lastName.length &&
  1 ≤ ins.dateOfBirth.length && 1 ≤ ins.phone.length && 1 ≤ ins.address.length

/-- `POST /api/patients`: validate, create, then log a
`patient_created` activity naming the new patient. Validation failure
returns 400 before any store access. -/
def postPatients (s : Store) (body : InsertPatient) (now : Nat) : Store × Option Patient :=
  if patientSchemaValid body then
    let r1 := createPatient s body now
    let r2 := createActivity r1.1
      { patientId := some r1.2.id
        action := "patient_created"
        description := "Patient " ++ r1.2.firstName ++ " " ++ r1.2.lastName ++ " created" } now
    (r2.1, some r1.2)
  else (s, none)

/-- `PATCH /api/patients/:id`: update; on 404 no activity is logged,
otherwise a `patient_updated` activity is appended. -/
def patchPatient (s : Store) (id : Nat) (u : PatientUpdate) (now : Nat) :
    Store × Option Patient :=
  match updatePatient s id u now with
  | (s1, none) => (s1, none)
  | (s1, some p) =>
    let r2 := createActivity s1
      { patientId := some p.id
        action := "patient_updated"
        description := "Patient " ++ p.firstName ++ " " ++ p.lastName ++ " updated" } now
    (r2.1, some p)

/-- `POST /api/patients/:id/complete`: complete; on 404 no activity is
logged, otherwise an `onboarding_completed` activity naming the
admission location is appended. -/
def completePatient (s : Store) (id : Nat) (loc : String) (now : Nat) :
    Store × Option Patient :=
  match completeOnboarding s id loc now with
  | (s1, none) => (s1, none)
  | (s1, some p) =>
    let r2 := createActivity s1
      { patientId := some p.id
        action := "onboarding_completed"
        description := "Onboarding completed for " ++ p.firstName ++ " " ++ p.lastName
          ++ " - admitted to " ++ loc } now
    (r2.1, some p)

/-- The personal-info form data of `onboarding-personal.tsx`. -/
structure PersonalInfo where
  firstName : String
  lastName : String
  dateOfBirth : String
  phone : String
  address : String
  emergencyContactName : Option String := none
  emergencyContactRelationship : Option String := none
  emergencyContactPhone : Option String := none
deriving Repr, DecidableEq

/-- Client-side zod `personalInfoSchema` of `onboarding-personal.tsx`:
all five demographic fields non-empty, phone at min length 10. -/
def personalInfoValid (d : PersonalInfo) : Bool :=
  1 ≤ d.firstName.length && 1 ≤ d.lastName.length &&
  1 ≤ d.dateOfBirth.length && 10 ≤ d.phone.length && 1 ≤ d.address.length

/-- The request body of `createPatientMutation`: the form data plus
`isEmergency` and `onboardingStep: 1`. -/
def personalToInsert (d : PersonalInfo) (isEmergency : Bool) : InsertPatient :=
  { firstName := d.firstName
    lastName := d.lastName
    dateOfBirth := d.dateOfBirth
    phone := d.phone
    address := d.address
    emergencyContactName := d.emergencyContactName
    emergencyContactRelationship := d.emergencyContactRelationship
    emergencyContactPhone := d.emergencyContactPhone
    onboardingStep := some 1
    isEmergency := some isEmergency }

/-- `submitPersonal`: the personal step of the wizard. The form
resolver blocks submission of an invalid payload; a valid one is posted
to `POST /api/patients`. -/
def submitPersonal (s : Store) (d : PersonalInfo) (isEmergency : Bool) (now : Nat) :
    Store × Option Patient :=
  if personalInfoValid d then postPatients s (personalToInsert d isEmergency) now
  else (s, none)

/-- `submitInsurance`: the insurance step, a `PATCH` carrying the three
insurance fields and `onboardingStep: 2`. -/
def submitInsurance (s : Store) (id : Nat) (provider policy group : String) (now : Nat) :
    Store × Option Patient :=
  patchPatient s id
    { insuranceProvider := some (some provider)
      insurancePolicyNumber := some (some policy)
      insuranceGroupNumber := some (some group)
      onboardingStep := some 2 } now

/-- `submitMedical`: the medical step of the wizard (the
`updatePatientMutation` of the medical page that precedes completion),
a `PATCH` carrying the medical fields and `onboardingStep: 3`. -/
def submitMedical (s : Store) (id : Nat) (allergies medications history : String) (now : Nat) :
    Store × Option Patient :=
  patchPatient s id
    { allergies := some (some allergies)
      medications := some (some medications)
      medicalHistory := some (some history)
      onboardingStep := some 3 } now

/-- An entry of the `emergencyLocations` list of
`onboarding-emergency.tsx`. -/
structure EmergencyLocation where
  id : String
  name : String
  floor : String
  wing : String
  waitTime : String
deriving Repr, DecidableEq, Inhabited

/-- The `emergencyLocations` list of `onboarding-emergency.tsx`. -/
def emergencyLocations : List EmergencyLocation :=
  [ { id := "emergency_room", name := "Emergency Room", floor := "Ground Floor",
      wing := "East Wing", waitTime := "Immediate" },
    { id := "icu", name := "Intensive Care Unit", floor := "Floor 3",
      wing := "North Wing", waitTime := "Immediate" },
    { id := "trauma_center", name := "Trauma Center", floor := "Ground Floor",
      wing := "West Wing", waitTime := "Immediate" },
    { id := "cardiac_unit", name := "Cardiac Care Unit", floor := "Floor 2",
      wing := "East Wing", waitTime := "Immediate" },
    { id := "pediatric_er", name := "Pediatric Emergency", floor := "Ground Floor",
      wing := "South Wing", waitTime := "Immediate" } ]

/-- The location switch inside `handleCompleteEmergency`: cardiac,
trauma and pediatric look their unit up by id (falling back to
`emergencyLocations[0]` if absent); any other type picks a random index
into the whole list (`r` stands for the `Math.random()` draw). -/
def chooseEmergencyLocation (selectedEmergencyType : String) (r : Nat) : EmergencyLocation :=
  if selectedEmergencyType = "cardiac" then
    ((emergencyLocations.find? (fun l => l.id == "cardiac_unit")).getD (emergencyLocations.getD 0 default))
  else if selectedEmergencyType = "trauma" then
    ((emergencyLocations.find? (fun l => l.id == "trauma_center")).getD (emergencyLocations.getD 0 default))
  else if selectedEmergencyType = "pediatric" then
    ((emergencyLocations.find? (fun l => l.id == "pediatric_er")).getD (emergencyLocations.getD 0 default))
  else
    emergencyLocations.getD (r % emergencyLocations.length) default

/-- A record of the `emergencyLocations` lookup table inside
`getLocationDetails` of `onboarding-confirmation.tsx`. -/
structure LocationDetails where
  floor : String
  wing : String
  icon : String
  directions : String
  estimatedTime : String
  priority : String
  name : String
deriving Repr, DecidableEq

def emergencyRoomDetails : LocationDetails :=
  { floor := "Ground Floor", wing := "East Wing", icon := "🚨",
    directions := "Enter through main entrance, follow red signs to Emergency Room",
    estimatedTime := "2 minutes walk", priority := "IMMEDIATE", name := "Emergency Room" }

def icuDetails : LocationDetails :=
  { floor := "Floor 3", wing := "North Wing", icon := "🏥",
    directions := "Take elevator to Floor 3, follow blue signs to ICU",
    estimatedTime := "3 minutes walk", priority := "IMMEDIATE", name := "Intensive Care Unit" }

def traumaCenterDetails : LocationDetails :=
  { floor := "Ground Floor", wing := "West Wing", icon := "🚑",
    directions := "Enter through main entrance, follow yellow signs to Trauma Center",
    estimatedTime := "2 minutes walk", priority := "IMMEDIATE", name := "Trauma Center" }

def cardiacUnitDetails : LocationDetails :=
  { floor := "Floor 2", wing := "East Wing", icon := "❤️",
    directions := "Take elevator to Floor 2, follow red signs to Cardiac Care Unit",
    estimatedTime := "3 minutes walk", priority := "IMMEDIATE", name := "Cardiac Care Unit" }

def pediatricErDetails : LocationDetails :=
  { floor := "Ground Floor", wing := "South Wing", icon := "👶",
    directions := "Enter through main entrance, follow green signs to Pediatric Emergency",
    estimatedTime := "2 minutes walk", priority := "IMMEDIATE", name := "Pediatric Emergency" }

def emergencyDeptDetails : LocationDetails :=
  { floor := "Ground Floor", wing := "East Wing", icon := "🚨",
    directions := "Enter through main entrance, follow red signs to Emergency Department",
    estimatedTime := "2 minutes walk", priority := "IMMEDIATE", name := "Emergency Department" }

def generalAdmissionDetails : LocationDetails :=
  { floor := "Floor 2", wing := "West Wing", icon := "🏥",
    directions := "Take elevator to Floor 2, turn left and follow blue signs to General Admission",
    estimatedTime := "5 minutes walk", priority := "Standard", name := "General Admission" }

/-- The keyed lookup inside the emergency branch of
`getLocationDetails`. -/
def emergencyLocationDetails (key : String) : Option LocationDetails :=
  if key = "emergency_room" then some emergencyRoomDetails
  else if key = "icu" then some icuDetails
  else if key = "trauma_center" then some traumaCenterDetails
  else if key = "cardiac_unit" then some cardiacUnitDetails
  else if key = "pediatric_er" then some pediatricErDetails
  else none

/-- `s` contains `pat` as a substring (JS `String.includes`). -/
def containsSubstring (s pat : String) : Bool := 1 < (s.splitOn pat).length

/-- `getLocationDetails` of `onboarding-confirmation.tsx`: in emergency
mode look the emergency-location id up (fallback `emergency_room`);
otherwise an `admissionLocation` containing "Emergency" maps to the
Emergency Department entry, and anything else to General Admission. -/
def getLocationDetails (isEmergency : Bool) (emergencyLocation : Option String)
    (location : Option String) : LocationDetails :=
  if isEmergency then
    match emergencyLocation with
    | some key => (emergencyLocationDetails key).getD emergencyRoomDetails
    | none => emergencyRoomDetails
  else if containsSubstring (location.getD "") "Emergency" then emergencyDeptDetails
  else generalAdmissionDetails

/-- `saveEmergencyPatient` of `onboarding-confirmation.tsx`: a single
`POST /api/patients` carrying the placeholder demographics, the looked
up admission location name, `onboardingStep: 2` and
`isCompleted: true`. `today` is the `toISOString` date string. -/
def saveEmergencyPatient (s : Store) (emergencyLocation : Option String)
    (today : String) (now : Nat) : Store × Option Patient :=
  let details := getLocationDetails true emergencyLocation none
  postPatients s
    { firstName := "Emergency"
      lastName := "Patient"
      dateOfBirth := today
      phone := "Emergency"
      address := "Emergency Admission"
      onboardingStep := some 2
      isCompleted := some true
      isEmergency := some true
      admissionLocation := some details.name } now

/-- URLSearchParams.get over a query string modelled as key/value
pairs. -/
def getParam (params : List (String × String)) (key : String) : Option String :=
  (params.find? (fun kv => kv.1 == key)).map (fun kv => kv.2)

/-- The confirmation query string built by `handleCompleteEmergency`:
the chosen location id travels under the key "emergencyLocation". -/
def emergencyNavigationParams (patientId emergencyType : String) (r : Nat) :
    List (String × String) :=
  [("patientId", patientId), ("emergency", "true"),
    ("emergencyLocation", (chooseEmergencyLocation emergencyType r).id),
    ("emergencyType", emergencyType)]

/-- The confirmation page's read of the emergency location
(`urlParams.get('location')`): it asks for the key "location", not the
"emergencyLocation" key the emergency page sent. -/
def confirmationEmergencyLocation (params : List (String × String)) : Option String :=
  getParam params "location"

/-- End-to-end emergency completion as wired in the source: the
emergency page navigates with the chosen location id in the query
string, the confirmation page reads its location param from that query
string and saves the patient. -/
def emergencyCompletionEndToEnd (s : Store) (patientId emergencyType : String) (r : Nat)
    (today : String) (now : Nat) : Store × Option Patient :=
  saveEmergencyPatient s
    (confirmationEmergencyLocation (emergencyNavigationParams patientId emergencyType r))
    today now

/-- Run the whole standard wizard from an empty store: personal step,
insurance step, medical step, completion. Returns the final store and,
when every phase succeeded, the list of `onboardingStep` values carried
by the four successive store writes of the patient record. -/
def standardFlowRun (d : PersonalInfo) (provider policy group : String)
    (allergies medications history : String) (loc : String)
    (t1 t2 t3 t4 : Nat) : Store × Option (List Int) :=
  match submitPersonal Store.empty d false t1 with
  | (s1, some p1) =>
    match submitInsurance s1 p1.id provider policy group t2 with
    | (s2, some p2) =>
      match submitMedical s2 p1.id allergies medications history t3 with
      | (s3, some p3) =>
        match completePatient s3 p1.id loc t4 with
        | (s4, some p4) =>
          (s4, some [p1.onboardingStep, p2.onboardingStep, p3.onboardingStep, p4.onboardingStep])
        | (s4, none) => (s4, none)
      | (s3, none) => (s3, none)
    | (s2, none) => (s2, none)
  | (s1, none) => (s1, none)

/-- The step values written over the standard flow. -/
def standardFlowTrace (d : PersonalInfo) (provider policy group : String)
    (allergies medications history : String) (loc : String)
    (t1 t2 t3 t4 : Nat) : Option (List Int) :=
  (standardFlowRun d provider policy group allergies medications history loc t1 t2 t3 t4).2

/-- The step values written for an emergency-path patient record: the
confirmation page persists it with a single creation write. -/
def emergencyFlowTrace (emergencyType : String) (r : Nat) (today : String) (now : Nat) :
    Option (List Int) :=
  match saveEmergencyPatient Store.empty (some (chooseEmergencyLocation emergencyType r).id)
      today now with
  | (_, some p) => some [p.onboardingStep]
  | (_, none) => none

/-- The record produced by a successful `completeOnboarding`. -/
def completedPatient (p : Patient) (loc : String) (now : Nat) : Patient :=
  { p with isCompleted := true, admissionLocation := some loc, updatedAt := now }

/-- Erase the mutation timestamp, for "equal timestamps aside"
comparisons. -/
def clearTime (p : Patient) : Patient := { p with updatedAt := 0 }

/-- A concrete completed patient used by witnesses. -/
def samplePatient : Patient :=
  { id := 0, firstName := "Jane", lastName := "Doe", dateOfBirth := "1990-01-01",
    phone := "5551234567", address := "1 Main St", emergencyContactName := none,
    emergencyContactRelationship := none, emergencyContactPhone := none,
    insuranceProvider := none, insurancePolicyNumber := none,
    insuranceGroupNumber := none, insuranceStatus := none, medicalHistory := none,
    allergies := none, medications := none, onboardingStep := 3, isCompleted := true,
    isEmergency := false, admissionLocation := some "General Admission - Room 204B",
    createdAt := 1, updatedAt := 2 }

/-- The normal form of the patient created by `submitPersonal` on a
fresh store. -/
def createdPersonalPatient (d : PersonalInfo) (e : Bool) (now : Nat) : Patient :=
  { id := 0, firstName := d.firstName, lastName := d.lastName,
    dateOfBirth := d.dateOfBirth, phone := d.phone, address := d.address,
    emergencyContactName := orNull d.emergencyContactName,
    emergencyContactRelationship := orNull d.emergencyContactRelationship,
    emergencyContactPhone := orNull d.emergencyContactPhone,
    insuranceProvider := none, insurancePolicyNumber := none,
    insuranceGroupNumber := none, insuranceStatus := none, medicalHistory := none,
    allergies := none, medications := none, onboardingStep := 1,
    isCompleted := false, isEmergency := e, admissionLocation := none,
    createdAt := now, updatedAt := now }

/-- The normal form of the `patient_created` activity logged by
`submitPersonal` on a fresh store. -/
def createdPersonalActivity (d : PersonalInfo) (now : Nat) : Activity :=
  { id := 1, patientId := some 0, action := "patient_created",
    description := "Patient " ++ d.firstName ++ " " ++ d.lastName ++ " created",
    createdAt := now }

/-- The Jane Doe payload of the spec's own scenario. -/
def janeDoe : PersonalInfo :=
  { firstName := "Jane", lastName := "Doe", dateOfBirth := "1990-01-01",
    phone := "5551234567", address := "1 Main St" }

/-- The invalid payload (missing first name) used as the C6 witness. -/
def blankFirstName : PersonalInfo :=
  { firstName := "", lastName := "Doe", dateOfBirth := "1990-01-01",
    phone := "5551234567", address := "1 Main St" }

/-- The C1 completion invariant exactly as the spec states it: a
completed record has a non-empty admission location and its
`onboardingStep` at the terminal value of its path (2 emergency,
4 standard). -/
def completionInvariantHolds (p : Patient) : Bool :=
  !p.isCompleted ||
    ((match p.admissionLocation with
      | some l => !(l == "")
      | none => false) &&
      (p.onboardingStep == if p.isEmergency then 2 else 4))

/-- The C1 invariant over the whole store. -/
def storeInvariantHolds (s : Store) : Bool := s.patients.all completionInvariantHolds

/-- The store after Jane Doe's standard personal, insurance and medical
steps, before completion. -/
def janeStoreBeforeCompletion : Store :=
  (submitMedical (submitInsurance (submitPersonal Store.empty janeDoe false 1).1
      0 "Acme Health" "P-12345" "G-1" 2).1 0 "Penicillin" "Aspirin" "none" 3).1

/-- The same store after the completion call of the standard wizard. -/
def janeStoreCompleted : Store :=
  (completePatient janeStoreBeforeCompletion 0 "General Admission - Room 204B" 4).1

/-! ## Helper lemmas about the patient map -/

theorem getPatient_id {s : Store} {id : Nat} {p : Patient}
    (h : getPatient s id = some p) : p.id = id := by
  simp only [getPatient] at h
  have hb := List.find?_some h
  simpa using hb

theorem find?_setPatient_self (l : List Patient) (id : Nat) (p' : Patient)
    (h : p'.id = id) :
    (setPatient l id p').find? (fun q => q.id == id) =
      (l.find? (fun q => q.id == id)).map (fun _ => p') := by
  induction l with
  | nil => rfl
  | cons a l ih =>
    simp only [setPatient, List.map_cons]
    by_cases ha : a.id = id
    · have ha1 : (a.id == id) = true := by simpa using ha
      have hp1 : (p'.id == id) = true := by simpa using h
      rw [if_pos ha1]
      simp only [List.find?_cons, ha1, hp1]
      rfl
    · have ha1 : (a.id == id) = false := by simpa using ha
      rw [if_neg (by simp [ha])]
      simp only [List.find?_cons, ha1]
      exact ih

theorem find?_setPatient_other (l : List Patient) (id : Nat) (p' : Patient)
    (h : p'.id = id) (id2 : Nat) (h2 : id2 ≠ id) :
    (setPatient l id p').find? (fun q => q.id == id2) =
      l.find? (fun q => q.id == id2) := by
  induction l with
  | nil => rfl
  | cons a l ih =>
    simp only [setPatient, List.map_cons]
    by_cases ha : a.id = id
    · have ha1 : (a.id == id) = true := by simpa using ha
      have hae : (a.id == id2) = false := by
        simp only [beq_eq_false_iff_ne, ha]
        exact fun hc => h2 hc.symm
      have hpe : (p'.id == id2) = false := by
        simp only [beq_eq_false_iff_ne, h]
        exact fun hc => h2 hc.symm
      rw [if_pos ha1]
      simp only [List.find?_cons, hae, hpe]
      exact ih
    · have ha1 : (a.id == id) = false := by simpa using ha
      rw [if_neg (by simp [ha])]
      simp only [List.find?_cons]
      by_cases ha2 : a.id = id2
      · simp only [show (a.id == id2) = true by simpa using ha2]
      · simp only [show (a.id == id2) = false by simpa using ha2]
        exact ih

theorem completeOnboarding_found {s : Store} {id : Nat} {p : Patient}
    (h : getPatient s id = some p) (loc : String) (now : Nat) :
    completeOnboarding s id loc now =
      ({ s with patients := setPatient s.patients id (completedPatient p loc now) },
        some (completedPatient p loc now)) := by
  simp only [getPatient] at h
  simp [completeOnboarding, h, completedPatient]

theorem completePatient_found {s : Store} {id : Nat} {p : Patient}
    (h : getPatient s id = some p) (loc : String) (now : Nat) :
    completePatient s id loc now =
      ({ patients := setPatient s.patients id (completedPatient p loc now)
         activities := s.activities ++
           [{ id := s.nextId
              patientId := some (completedPatient p loc now).id
              action := "onboarding_completed"
              description := "Onboarding completed for " ++ p.firstName ++ " " ++ p.lastName
                ++ " - admitted to " ++ loc
              createdAt := now }]
         nextId := s.nextId + 1 },
        some (completedPatient p loc now)) := by
  rw [completePatient, completeOnboarding_found h loc now]
  simp [createActivity, completedPatient]

theorem getPatient_after_complete {s : Store} {id : Nat} {p : Patient}
    (h : getPatient s id = some p) (loc : String) (now : Nat) :
    getPatient (completePatient s id loc now).1 id = some (completedPatient p loc now) := by
  rw [completePatient_found h loc now]
  show (setPatient s.patients id (completedPatient p loc now)).find? (fun q => q.id == id) = _
  rw [find?_setPatient_self s.patients id _ (by simpa [completedPatient] using getPatient_id h)]
  rw [show s.patients.find? (fun q => q.id == id) = some p from h]
  rfl

/-! ## Claim theorems -/

/-- C5: for an id not present in the store, `updatePatient` and
`completeOnboarding` return a not-found signal (`none`), the store is
unchanged, and — at the route layer, where the `patient_updated` /
`onboarding_completed` activity would be logged — no activity row is
appended either. -/
theorem notFound_ops_are_noops (s : Store) (id : Nat) (u : PatientUpdate) (loc : String)
    (now : Nat) (h : getPatient s id = none) :
    updatePatient s id u now = (s, none) ∧
    completeOnboarding s id loc now = (s, none) ∧
    patchPatient s id u now = (s, none) ∧
    completePatient s id loc now = (s, none) := by
  simp only [getPatient] at h
  refine ⟨?_, ?_, ?_, ?_⟩ <;>
    simp [updatePatient, completeOnboarding, patchPatient, completePatient, h]

/-- Witness for C5 at a concrete input: the empty store has no patient
with id 0, and both mutators leave it untouched with no activity. -/
theorem notFound_ops_are_noops_witness :
    getPatient Store.empty 0 = none ∧
    updatePatient Store.empty 0 {} 7 = (Store.empty, none) ∧
    completePatient Store.empty 0 "General Admission - Room 204B" 7 = (Store.empty, none) := by
  have h := notFound_ops_are_noops Store.empty 0 {} "General Admission - Room 204B" 7 (by rfl)
  exact ⟨by rfl, h.1, h.2.2.2⟩

/-- C9: the activity log is append-only — `createPatient`,
`updatePatient` and `completeOnboarding` never touch it, and the only
operation on activities the storage interface offers besides reading is
`createActivity`, which appends one row — and `getRecentActivities`
returns at most `limit` rows ordered newest-first by creation time. -/
theorem activity_log_append_only (s : Store) (limit : Nat) :
    (getRecentActivities s limit).length ≤ limit ∧
    List.Sorted newestFirst (getRecentActivities s limit) ∧
    (∀ ins now, (createPatient s ins now).1.activities = s.activities) ∧
    (∀ id u now, (updatePatient s id u now).1.activities = s.activities) ∧
    (∀ id loc now, (completeOnboarding s id loc now).1.activities = s.activities) ∧
    (∀ ia now, ∃ a, (createActivity s ia now).1.activities = s.activities ++ [a]) := by
  refine ⟨?_, ?_, fun ins now => rfl, ?_, ?_, fun ia now => ⟨_, rfl⟩⟩
  · exact List.length_take_le limit _
  · exact (List.sorted_insertionSort newestFirst s.activities).sublist
      (List.take_sublist limit _)
  · intro id u now
    unfold updatePatient
    cases s.patients.find? (fun p => p.id == id) <;> rfl
  · intro id loc now
    unfold completeOnboarding
    cases s.patients.find? (fun p => p.id == id) <;> rfl

/-- C8 counterexample: on an empty store the aggregator does NOT return
0 for all four statistics — `averageTime` is the hardcoded constant 8. -/
theorem dashboard_empty_not_all_zero :
    getDashboardStats Store.empty 0 ≠
      { totalPatients := 0, completedToday := 0, inProgress := 0, averageTime := 0 } := by
  decide

/-- C8 amended: on an empty store the three patient counts are 0 while
`averageTime` is the hardcoded 8; for a store holding exactly one
patient created today and completed today, `completedToday = 1` and the
pending count `inProgress = 0`. -/
theorem dashboard_stats_empty_and_one_completed (t n : Nat) (p : Patient)
    (acts : List Activity) (hc : p.isCompleted = true)
    (_hcr : t ≤ p.createdAt) (hu : t ≤ p.updatedAt) :
    getDashboardStats Store.empty t =
      { totalPatients := 0, completedToday := 0, inProgress := 0, averageTime := 8 } ∧
    getDashboardStats { patients := [p], activities := acts, nextId := n } t =
      { totalPatients := 1, completedToday := 1, inProgress := 0, averageTime := 8 } := by
  refine ⟨rfl, ?_⟩
  simp [getDashboardStats, List.filter, hc, hu]

/-- Witness for C8 at a concrete input: one patient created and
completed on day-start 0. -/
theorem dashboard_stats_witness :
    getDashboardStats { patients := [samplePatient], activities := [], nextId := 1 } 0 =
      { totalPatients := 1, completedToday := 1, inProgress := 0, averageTime := 8 } :=
  (dashboard_stats_empty_and_one_completed 0 1 samplePatient [] rfl (by decide) (by decide)).2

/-- C10: a successful `completeOnboarding(id, loc)` changes only
`isCompleted`, `admissionLocation` and `updatedAt` of the addressed
patient; every other field of that patient, every other patient, the
activity log and the id counter are untouched. -/
theorem completeOnboarding_frame (s : Store) (id : Nat) (loc : String) (now : Nat)
    (p : Patient) (h : getPatient s id = some p) :
    ∃ q, (completeOnboarding s id loc now).2 = some q ∧
      getPatient (completeOnboarding s id loc now).1 id = some q ∧
      q.isCompleted = true ∧ q.admissionLocation = some loc ∧ q.updatedAt = now ∧
      q.id = p.id ∧ q.firstName = p.firstName ∧ q.lastName = p.lastName ∧
      q.dateOfBirth = p.dateOfBirth ∧ q.phone = p.phone ∧ q.address = p.address ∧
      q.emergencyContactName = p.emergencyContactName ∧
      q.emergencyContactRelationship = p.emergencyContactRelationship ∧
      q.emergencyContactPhone = p.emergencyContactPhone ∧
      q.insuranceProvider = p.insuranceProvider ∧
      q.insurancePolicyNumber = p.insurancePolicyNumber ∧
      q.insuranceGroupNumber = p.insuranceGroupNumber ∧
      q.insuranceStatus = p.insuranceStatus ∧
      q.medicalHistory = p.medicalHistory ∧
      q.allergies = p.allergies ∧
      q.medications = p.medications ∧
      q.onboardingStep = p.onboardingStep ∧
      q.isEmergency = p.isEmergency ∧
      q.createdAt = p.createdAt ∧
      (∀ id2, id2 ≠ id →
        getPatient (completeOnboarding s id loc now).1 id2 = getPatient s id2) ∧
      (completeOnboarding s id loc now).1.activities = s.activities ∧
      (completeOnboarding s id loc now).1.nextId = s.nextId := by
  have hp : p.id = id := getPatient_id h
  have hq : (completedPatient p loc now).id = id := by simpa [completedPatient] using hp
  refine ⟨completedPatient p loc now, ?_, ?_, rfl, rfl, rfl, rfl, rfl, rfl, rfl, rfl, rfl,
    rfl, rfl, rfl, rfl, rfl, rfl, rfl, rfl, rfl, rfl, rfl, rfl, rfl, ?_, ?_, ?_⟩
  · rw [completeOnboarding_found h loc now]
  · rw [completeOnboarding_found h loc now]
    show (setPatient s.patients id (completedPatient p loc now)).find? (fun q => q.id == id) = _
    rw [find?_setPatient_self s.patients id _ hq]
    rw [show s.patients.find? (fun q => q.id == id) = some p from h]
    rfl
  · intro id2 h2
    rw [completeOnboarding_found h loc now]
    show (setPatient s.patients id (completedPatient p loc now)).find? (fun q => q.id == id2) = _
    rw [find?_setPatient_other s.patients id _ hq id2 h2]
    rfl
  · rw [completeOnboarding_found h loc now]
  · rw [completeOnboarding_found h loc now]

/-- Witness for C10 at a concrete input: completing the sample patient
in a one-patient store. -/
theorem completeOnboarding_frame_witness :
    ∃ q, (completeOnboarding { patients := [samplePatient], activities := [], nextId := 1 }
        0 "ICU - Bed 3" 9).2 = some q ∧ q.isCompleted = true ∧
      q.admissionLocation = some "ICU - Bed 3" := by
  obtain ⟨q, h1, -, h3, h4, -⟩ :=
    completeOnboarding_frame { patients := [samplePatient], activities := [], nextId := 1 }
      0 "ICU - Bed 3" 9 samplePatient (by rfl)
  exact ⟨q, h1, h3, h4⟩

/-- C2: for an existing patient id, completing twice in succession with
the same location yields the same final patient state as completing
once (timestamps aside): `isCompleted = true` and
`admissionLocation = loc` — while the activity log gains exactly two
`onboarding_completed` rows, one per call, with no deduplication. -/
theorem complete_twice_idempotent (s : Store) (id : Nat) (loc : String) (t1 t2 t3 : Nat)
    (p : Patient) (h : getPatient s id = some p) :
    (completePatient (completePatient s id loc t1).1 id loc t2).2.map clearTime
        = (completePatient s id loc t3).2.map clearTime ∧
    ((getPatient (completePatient (completePatient s id loc t1).1 id loc t2).1 id).map clearTime
        = (getPatient (completePatient s id loc t3).1 id).map clearTime) ∧
    (completePatient (completePatient s id loc t1).1 id loc t2).2.map Patient.isCompleted
        = some true ∧
    (completePatient (completePatient s id loc t1).1 id loc t2).2.map Patient.admissionLocation
        = some (some loc) ∧
    ((completePatient (completePatient s id loc t1).1 id loc t2).1.activities.filter
          (fun a => a.action == "onboarding_completed")).length
      = (s.activities.filter (fun a => a.action == "onboarding_completed")).length + 2 := by
  have h1 : getPatient (completePatient s id loc t1).1 id = some (completedPatient p loc t1) :=
    getPatient_after_complete h loc t1
  have e2 := completePatient_found h1 loc t2
  have e3 := completePatient_found h loc t3
  have hcc : completedPatient (completedPatient p loc t1) loc t2 = completedPatient p loc t2 := by
    simp [completedPatient]
  refine ⟨?_, ?_, ?_, ?_, ?_⟩
  · rw [e2, e3]
    simp [hcc, clearTime, completedPatient]
  · have g2 : getPatient (completePatient (completePatient s id loc t1).1 id loc t2).1 id
        = some (completedPatient (completedPatient p loc t1) loc t2) :=
      getPatient_after_complete h1 loc t2
    have g3 : getPatient (completePatient s id loc t3).1 id = some (completedPatient p loc t3) :=
      getPatient_after_complete h loc t3
    rw [g2, g3]
    simp [hcc, clearTime, completedPatient]
  · rw [e2]; simp [completedPatient]
  · rw [e2]; simp [completedPatient]
  · rw [e2, completePatient_found h loc t1]
    simp [List.filter_append]

/-- Witness for C2 at a concrete input: a one-patient store, two
completions, two `onboarding_completed` rows. -/
theorem complete_twice_idempotent_witness :
    (completePatient (completePatient
          { patients := [samplePatient], activities := [], nextId := 1 }
          0 "ICU - Bed 3" 4).1 0 "ICU - Bed 3" 5).2.map Patient.isCompleted = some true ∧
    ((completePatient (completePatient
          { patients := [samplePatient], activities := [], nextId := 1 }
          0 "ICU - Bed 3" 4).1 0 "ICU - Bed 3" 5).1.activities.filter
        (fun a => a.action == "onboarding_completed")).length = 2 := by
  have h := complete_twice_idempotent
    { patients := [samplePatient], activities := [], nextId := 1 }
    0 "ICU - Bed 3" 4 5 6 samplePatient (by rfl)
  exact ⟨h.2.2.1, h.2.2.2.2⟩

theorem personalValid_schemaValid (d : PersonalInfo) (e : Bool)
    (h : personalInfoValid d = true) :
    patientSchemaValid (personalToInsert d e) = true := by
  simp only [personalInfoValid, Bool.and_eq_true, decide_eq_true_eq] at h
  simp only [patientSchemaValid, personalToInsert, Bool.and_eq_true, decide_eq_true_eq]
  omega

/-- Normal form of `submitPersonal` on a fresh store with a valid
payload: one patient, one `patient_created` activity. -/
theorem submitPersonal_fresh_eq (d : PersonalInfo) (e : Bool) (now : Nat)
    (h : personalInfoValid d = true) :
    submitPersonal Store.empty d e now =
      ({ patients := [createdPersonalPatient d e now]
         activities := [createdPersonalActivity d now]
         nextId := 2 }, some (createdPersonalPatient d e now)) := by
  have hv := personalValid_schemaValid d e h
  simp only [personalToInsert] at hv
  simp [submitPersonal, h, postPatients, hv, createPatient, createActivity,
    personalToInsert, Store.empty, createdPersonalPatient, createdPersonalActivity, orNull]

/-- C4: a valid personal-info payload on a fresh session creates
exactly one patient, with `onboardingStep = 1` and
`isCompleted = false`, and appends exactly one activity, with action
`patient_created`, referencing that patient. -/
theorem submitPersonal_fresh_creates_one (d : PersonalInfo) (e : Bool) (now : Nat)
    (h : personalInfoValid d = true) :
    submitPersonal Store.empty d e now =
        ({ patients := [createdPersonalPatient d e now]
           activities := [createdPersonalActivity d now]
           nextId := 2 }, some (createdPersonalPatient d e now)) ∧
      (createdPersonalPatient d e now).onboardingStep = 1 ∧
      (createdPersonalPatient d e now).isCompleted = false ∧
      (createdPersonalPatient d e now).id = 0 ∧
      (createdPersonalActivity d now).action = "patient_created" ∧
      (createdPersonalActivity d now).patientId = some (createdPersonalPatient d e now).id :=
  ⟨submitPersonal_fresh_eq d e now h, rfl, rfl, rfl, rfl, rfl⟩

/-- Witness for C4 at the spec's concrete scenario payload. -/
theorem submitPersonal_fresh_creates_one_witness :
    submitPersonal Store.empty janeDoe false 1 =
        ({ patients := [createdPersonalPatient janeDoe false 1]
           activities := [createdPersonalActivity janeDoe 1]
           nextId := 2 }, some (createdPersonalPatient janeDoe false 1)) ∧
      (createdPersonalPatient janeDoe false 1).onboardingStep = 1 ∧
      (createdPersonalPatient janeDoe false 1).isCompleted = false ∧
      (createdPersonalPatient janeDoe false 1).id = 0 ∧
      (createdPersonalActivity janeDoe 1).action = "patient_created" ∧
      (createdPersonalActivity janeDoe 1).patientId =
        some (createdPersonalPatient janeDoe false 1).id :=
  submitPersonal_fresh_creates_one janeDoe false 1 (by decide)

/-- C6: `submitPersonal` succeeds exactly when first name, last name,
date of birth, phone and address are non-empty and the phone passes the
minimum-length (10) check; an invalid payload fails validation before
reaching the store — nothing is created and no activity is appended. -/
theorem submitPersonal_validation_gate (s : Store) (d : PersonalInfo) (e : Bool) (now : Nat) :
    ((submitPersonal s d e now).2.isSome = true ↔ personalInfoValid d = true) ∧
    (personalInfoValid d = true ↔
      (1 ≤ d.firstName.length ∧ 1 ≤ d.lastName.length ∧ 1 ≤ d.dateOfBirth.length ∧
        10 ≤ d.phone.length ∧ 1 ≤ d.address.length)) ∧
    (personalInfoValid d = false → submitPersonal s d e now = (s, none)) := by
  refine ⟨?_, ?_, ?_⟩
  · cases hv : personalInfoValid d with
    | true =>
      have hsv := personalValid_schemaValid d e hv
      simp [submitPersonal, hv, postPatients, hsv]
    | false => simp [submitPersonal, hv]
  · simp [personalInfoValid, Bool.and_eq_true, decide_eq_true_eq, and_assoc]
  · intro hv
    simp [submitPersonal, hv]

/-- Witness for C6 at a concrete input: a payload with an empty first
name is rejected and the store is left untouched. -/
theorem submitPersonal_validation_gate_witness :
    personalInfoValid blankFirstName = false ∧
    submitPersonal Store.empty blankFirstName false 0 = (Store.empty, none) :=
  ⟨by decide,
    (submitPersonal_validation_gate Store.empty blankFirstName false 0).2.2 (by decide)⟩

/-- C1 counterexample: the invariant holds before completion and is
broken by `completeOnboarding` itself — the completed standard-path
patient keeps `onboardingStep = 3`, not the terminal 4, so the claimed
invariant is not preserved by the store operations. -/
theorem completion_invariant_broken_by_complete :
    storeInvariantHolds janeStoreBeforeCompletion = true ∧
    storeInvariantHolds janeStoreCompleted = false := by decide

/-- C1 amended: a patient completed through `completeOnboarding` with a
non-empty location does get `isCompleted = true` and that non-empty
`admissionLocation`, but its `onboardingStep` keeps its pre-completion
value — completion forces no terminal step, so the invariant as stated
does not hold. -/
theorem completion_invariant_amended (s : Store) (id : Nat) (loc : String) (now : Nat)
    (p : Patient) (h : getPatient s id = some p) (hloc : loc ≠ "") :
    ∃ q, (completeOnboarding s id loc now).2 = some q ∧
      getPatient (completeOnboarding s id loc now).1 id = some q ∧
      q.isCompleted = true ∧ q.admissionLocation = some loc ∧ loc ≠ "" ∧
      q.onboardingStep = p.onboardingStep := by
  refine ⟨completedPatient p loc now, ?_, ?_, rfl, rfl, hloc, rfl⟩
  · rw [completeOnboarding_found h loc now]
  · rw [completeOnboarding_found h loc now]
    show (setPatient s.patients id (completedPatient p loc now)).find? (fun q => q.id == id) = _
    rw [find?_setPatient_self s.patients id _
      (by simpa [completedPatient] using getPatient_id h)]
    rw [show s.patients.find? (fun q => q.id == id) = some p from h]
    rfl

/-- Witness for the amended C1 at a concrete input. -/
theorem completion_invariant_amended_witness :
    ∃ q, (completeOnboarding { patients := [samplePatient], activities := [], nextId := 1 }
        0 "Trauma Center" 9).2 = some q ∧ q.isCompleted = true ∧
      q.onboardingStep = samplePatient.onboardingStep := by
  obtain ⟨q, h1, -, h3, -, -, h6⟩ :=
    completion_invariant_amended { patients := [samplePatient], activities := [], nextId := 1 }
      0 "Trauma Center" 9 samplePatient (by rfl) (by decide)
  exact ⟨q, h1, h3, h6⟩

/-- C3 counterexample: the standard flow writes the step sequence
[1,2,3,3] — the completion write re-carries step 3, never 4 — and the
emergency record is persisted by a single creation write carrying
step 2, so neither path matches the claimed sequences. -/
theorem step_sequence_counterexample :
    standardFlowTrace janeDoe "Acme Health" "P-12345" "G-1" "Penicillin" "Aspirin" "none"
        "General Admission - Room 204B" 1 2 3 4 ≠ some [1, 2, 3, 4] ∧
    emergencyFlowTrace "cardiac" 0 "2026-02-03" 5 ≠ some [1, 2] := by decide

/-- `patientSchemaValid` on the body posted by `saveEmergencyPatient`:
only the date-of-birth string is not a literal. -/
theorem patientSchemaValid_emergencyBody (today : String) (htoday : 1 ≤ today.length)
    (a : Option String) :
    patientSchemaValid
      { firstName := "Emergency", lastName := "Patient", dateOfBirth := today,
        phone := "Emergency", address := "Emergency Admission",
        onboardingStep := some 2, isCompleted := some true, isEmergency := some true,
        admissionLocation := a } = true := by
  simp only [patientSchemaValid, Bool.and_eq_true, decide_eq_true_eq]
  exact ⟨⟨⟨⟨by decide, by decide⟩, htoday⟩, by decide⟩, by decide⟩

/-- C3 amended: for every valid personal payload the standard flow's
four store writes carry the step values [1,2,3,3] (completion leaves
the step at its pre-terminal value 3); the emergency path persists its
record with one single write carrying step 2. -/
theorem step_sequence_amended (d : PersonalInfo) (provider policy group : String)
    (allergies medications history : String) (loc : String) (t1 t2 t3 t4 : Nat)
    (h : personalInfoValid d = true) :
    standardFlowTrace d provider policy group allergies medications history loc t1 t2 t3 t4
        = some [1, 2, 3, 3] ∧
    (∀ emergencyType r today now, 1 ≤ today.length →
      emergencyFlowTrace emergencyType r today now = some [2]) := by
  constructor
  · unfold standardFlowTrace standardFlowRun
    rw [submitPersonal_fresh_eq d false t1 h]
    rfl
  · intro emergencyType r today now htoday
    unfold emergencyFlowTrace saveEmergencyPatient postPatients
    rw [if_pos (patientSchemaValid_emergencyBody today htoday _)]
    rfl

/-- Witness for the amended C3 at concrete inputs. -/
theorem step_sequence_amended_witness :
    standardFlowTrace janeDoe "Acme Health" "P-12345" "G-1" "Penicillin" "Aspirin" "none"
        "General Admission - Room 204B" 1 2 3 4 = some [1, 2, 3, 3] ∧
    emergencyFlowTrace "cardiac" 0 "2026-02-03" 5 = some [2] := by
  have h := step_sequence_amended janeDoe "Acme Health" "P-12345" "G-1" "Penicillin"
    "Aspirin" "none" "General Admission - Room 204B" 1 2 3 4 (by decide)
  exact ⟨h.1, h.2 "cardiac" 0 "2026-02-03" 5 (by decide)⟩

/-- C7: the code evaluated at the failing input. For a cardiac
emergency the emergency page does choose the cardiac-unit entry of the
lookup table, but it sends the id under the query key
"emergencyLocation" while the confirmation page reads the key
"location"; the read is therefore always `none`, the lookup falls back
to the emergency_room entry, and the stored `admissionLocation` is the
generic "Emergency Room" default — not the cardiac-unit entry the
claim (and the evident intent of the dead lookup table) requires. -/
theorem emergency_location_param_mismatch :
    (chooseEmergencyLocation "cardiac" 0).id = "cardiac_unit" ∧
    (chooseEmergencyLocation "cardiac" 0).name = "Cardiac Care Unit" ∧
    confirmationEmergencyLocation (emergencyNavigationParams "EMG-TEST" "cardiac" 0) = none ∧
    (emergencyCompletionEndToEnd Store.empty "EMG-TEST" "cardiac" 0 "2026-02-03" 7).2.map
        Patient.admissionLocation = some (some "Emergency Room") ∧
    emergencyRoomDetails.name = "Emergency Room" ∧
    ("Emergency Room" : String) ≠ "Cardiac Care Unit" := by
  decide
